import Mathlib

/-!
Shallow embedding of the `marcoscalencar/orm` TypeScript sources:
the PostgreSQL query builder (`src/orm/queryBuilder/pg/index.ts`),
the repository facade (`src/orm/repository/pg/index.ts`),
the connection/transaction layer (`src/orm/connection/pg/index.ts`)
and the `Column` decorator (`src/orm/decorators/index.ts`).

Conventions of the embedding:
* SQL parameter values are opaque strings (`SqlValue`).
* A JavaScript object passed as a row is an association list
  `List (String × Option SqlValue)`; an entry `(k, none)` models a key
  that is present but bound to `undefined` (such keys are still listed
  by `Object.keys`), and a missing key models an absent property.
* Host-language predicates are represented by the string that
  `Function.prototype.toString` returns for them, because the source
  only ever uses their printed form.
* The driver behaviour of a connection is passed explicitly as a
  function `String → List SqlValue → QueryResult` where execution
  results are needed, since the embedding is pure.
-/

set_option autoImplicit false

namespace Orm

/-- Values sent to the driver as positional SQL parameters (opaque). -/
abbrev SqlValue := String

/-- A JavaScript row object: ordered keys, each bound to a defined value
(`some v`) or to `undefined` (`none`). -/
abbrev Row := List (String × Option SqlValue)

/-- A row coming back from the driver. -/
abbrev ResultRow := List (String × SqlValue)

/-- Reading `row[column]` on a JavaScript object: `undefined` (`none`)
when the key is absent or explicitly bound to `undefined`. -/
def lookupVal (row : Row) (c : String) : Option SqlValue :=
  match row.lookup c with
  | some (some v) => some v
  | _ => none

/-- Double-quoting of an identifier, as in the template literals
`"${String(column)}"` of the source. -/
def quoteIdent (s : String) : String :=
  "\"" ++ s ++ "\""

/-- JavaScript `String.prototype.toUpperCase()` on the ASCII direction
strings the builder receives, character by character. -/
def toUpperAscii (s : String) : String :=
  String.mk (s.data.map Char.toUpper)

/-- JavaScript `Array.prototype.join(sep)`. -/
def joinSep (sep : String) : List String → String
  | [] => ""
  | [a] => a
  | a :: b :: rest => a ++ sep ++ joinSep sep (b :: rest)

/-- Global replacement of the two-character pattern `v.` (the source uses
the regexes `/t\./g` and `/u\./g`), scanning left to right. -/
def replaceAccess (v : Char) (repl : List Char) : List Char → List Char
  | [] => []
  | [c] => [c]
  | c :: d :: cs =>
    if c = v ∧ d = '.' then repl ++ replaceAccess v repl cs
    else c :: replaceAccess v repl (d :: cs)

/-- The condition rewriting of `where`/`innerJoin`/`leftJoin`:
`src.replace(/v\./g, `"table".`)` — every occurrence of `v.` in the
predicate source text becomes the double-quoted table name followed by a
dot. Only the table name is quoted; whatever follows the dot is left as
it appears in the source text. -/
def rewriteCond (v : Char) (tableName : String) (src : String) : String :=
  String.mk (replaceAccess v (quoteIdent tableName ++ ".").data src.data)

/-- Identity of a connection object (the builder only stores the
reference; its driver behaviour is passed separately where needed). -/
structure Connection where
  connId : Nat
deriving DecidableEq, Repr

/-- The slice of the `Entity` interface the builder and repository read:
`tableName` and the key set of the `columns` record. -/
structure Entity where
  tableName : String
  columns : List String
deriving DecidableEq, Repr

/-- Result shape of `Connection.query`: `{ rows, rowCount }`. -/
structure QueryResult where
  rows : List ResultRow
  rowCount : Nat
deriving DecidableEq, Repr

/-- State of a `PgQueryBuilder` object: the connection and entity it is
bound to, the accumulated SQL text and the positional parameters. -/
structure PgQueryBuilder where
  connection : Connection
  entity : Entity
  sql : String
  params : List SqlValue
deriving DecidableEq, Repr

namespace PgQueryBuilder

/-- The constructor `new PgQueryBuilder(connection, entity)`. -/
def new (connection : Connection) (entity : Entity) : PgQueryBuilder :=
  { connection := connection, entity := entity, sql := "", params := [] }

/-- The `select(...columns)` method: fresh builder, fresh statement. -/
def select (qb : PgQueryBuilder) (columns : List String) : PgQueryBuilder :=
  { new qb.connection qb.entity with
    sql := "SELECT " ++ joinSep ", " (columns.map quoteIdent)
      ++ " FROM " ++ quoteIdent qb.entity.tableName }

/-- The `columns.map(...)` body inside `insert`: one cell text per column
of the row, threading `qb.params` through (`NULL` for undefined values,
`$(qb.params.length)` after pushing otherwise). -/
def rowValues (params : List SqlValue) (row : Row) :
    List String → List String × List SqlValue
  | [] => ([], params)
  | c :: cs =>
    match lookupVal row c with
    | none =>
      let r := rowValues params row cs
      ("NULL" :: r.1, r.2)
    | some v =>
      let r := rowValues (params ++ [v]) row cs
      (("$" ++ toString (params.length + 1)) :: r.1, r.2)

/-- The row loop of `insert`: appends `(v1, ..., vK)` for each row and a
`", "` separator after every row but the last. -/
def insertRows (columns : List String) :
    List Row → String → List SqlValue → String × List SqlValue
  | [], sql, params => (sql, params)
  | row :: rest, sql, params =>
    let rv := rowValues params row columns
    let sql1 := sql ++ ("(" ++ joinSep ", " rv.1 ++ ")")
    let sql2 := if rest = [] then sql1 else sql1 ++ ", "
    insertRows columns rest sql2 rv.2

/-- The statement head of `insert`, up to and including `VALUES` (the
source template ends at `VALUES` with no trailing space). -/
def insertHead (e : Entity) (columns : List String) : String :=
  "INSERT INTO " ++ quoteIdent e.tableName ++ " ("
    ++ joinSep ", " (columns.map quoteIdent) ++ ") VALUES"

/-- The `insert(...rows)` method. `Object.keys(rows[0])` throws a
`TypeError` when no row is given (`rows[0]` is `undefined`), which the
embedding renders as `none`. -/
def insert (qb : PgQueryBuilder) (rows : List Row) : Option PgQueryBuilder :=
  match rows with
  | [] => none
  | r0 :: _ =>
    let columns := r0.map Prod.fst
    let body := insertRows columns rows (insertHead qb.entity columns) []
    some { new qb.connection qb.entity with sql := body.1, params := body.2 }

/-- The key loop of `update`: appends ` "k" =` then ` NULL` or ` $n`,
with a `", "` separator after every key but the last. -/
def updateLoop (params : List SqlValue) (columns : Row) :
    List String → String × List SqlValue
  | [] => ("", params)
  | k :: ks =>
    let assign := " " ++ quoteIdent k ++ " ="
    match lookupVal columns k with
    | none =>
      let r := updateLoop params columns ks
      (assign ++ " NULL" ++ (if ks = [] then "" else ", ") ++ r.1, r.2)
    | some v =>
      let r := updateLoop (params ++ [v]) columns ks
      (assign ++ (" $" ++ toString (params.length + 1))
        ++ (if ks = [] then "" else ", ") ++ r.1, r.2)

/-- The `update(columns)` method. -/
def update (qb : PgQueryBuilder) (columns : Row) : PgQueryBuilder :=
  let body := updateLoop [] columns (columns.map Prod.fst)
  { new qb.connection qb.entity with
    sql := "UPDATE " ++ quoteIdent qb.entity.tableName ++ " SET" ++ body.1,
    params := body.2 }

/-- The `delete()` method. -/
def delete (qb : PgQueryBuilder) : PgQueryBuilder :=
  { new qb.connection qb.entity with
    sql := "DELETE FROM " ++ quoteIdent qb.entity.tableName }

/-- Top-level object spread `{...this.entity, ...entity}`. Every
`Entity` value of the embedding carries both fields, so the fields of
the right operand override those of the left entirely. -/
def mergeEntity (_left right : Entity) : Entity :=
  { tableName := right.tableName, columns := right.columns }

/-- The `innerJoin(entity, on)` method; `onSrc` is the printed source
text of the `on` function. -/
def innerJoin (qb : PgQueryBuilder) (other : Entity) (onSrc : String) :
    PgQueryBuilder :=
  { new qb.connection (mergeEntity qb.entity other) with
    sql := "SELECT * FROM " ++ quoteIdent qb.entity.tableName
      ++ " INNER JOIN " ++ quoteIdent other.tableName ++ " ON"
      ++ rewriteCond 'u' other.tableName
          (rewriteCond 't' qb.entity.tableName onSrc) }

/-- The `leftJoin(entity, on)` method. -/
def leftJoin (qb : PgQueryBuilder) (other : Entity) (onSrc : String) :
    PgQueryBuilder :=
  { new qb.connection (mergeEntity qb.entity other) with
    sql := "SELECT * FROM " ++ quoteIdent qb.entity.tableName
      ++ " LEFT JOIN " ++ quoteIdent other.tableName ++ " ON"
      ++ rewriteCond 'u' other.tableName
          (rewriteCond 't' qb.entity.tableName onSrc) }

/-- The `where(condition1)` method (named `whereSql` here because
`where` is a Lean keyword): a fresh builder whose sql is the receiver's
sql, then ` WHERE` with no trailing space, then the rewritten predicate
source text. The fresh builder's `params` stay `[]`; the receiver's
parameters are not copied over. -/
def whereSql (qb : PgQueryBuilder) (condSrc : String) : PgQueryBuilder :=
  { new qb.connection qb.entity with
    sql := qb.sql ++ " WHERE" ++ rewriteCond 't' qb.entity.tableName condSrc }

/-- The `orderBy(column, direction)` method. -/
def orderBy (qb : PgQueryBuilder) (column : String) (direction : String) :
    PgQueryBuilder :=
  { new qb.connection qb.entity with
    sql := qb.sql ++ " ORDER BY " ++ quoteIdent column ++ " "
      ++ toUpperAscii direction }

/-- The `limit(count)` method. -/
def limit (qb : PgQueryBuilder) (count : Int) : PgQueryBuilder :=
  { new qb.connection qb.entity with
    sql := qb.sql ++ " LIMIT " ++ toString count }

/-- The `offset(count)` method. -/
def offset (qb : PgQueryBuilder) (count : Int) : PgQueryBuilder :=
  { new qb.connection qb.entity with
    sql := qb.sql ++ " OFFSET " ++ toString count }

/-- The `execute()` method: sends `(this.sql, this.params)` to the bound
connection and returns `result.rows`; `q` is the driver behaviour of
that connection. -/
def execute (q : String → List SqlValue → QueryResult)
    (qb : PgQueryBuilder) : List ResultRow :=
  (q qb.sql qb.params).rows

end PgQueryBuilder

namespace PgRepository

/-- Printed source text of the predicate `(t) => t.id === id` that
`findById` passes to `where` (the closure captures the variable `id`;
its printed form shows the variable name, never the value). -/
def findByIdCondSrc : String :=
  "(t) => t.id === id"

/-- The `findById(id)` method of `PgRepository`. The source calls
`qb.select(...)` and `qb.where(...)` on a `const qb` and discards both
returned builders, then executes `qb` itself; the discarded calls are
kept here as unused bindings. Returns `result[0] || null` (result rows
are objects, hence truthy), i.e. the head of the rows. -/
def findById (q : String → List SqlValue → QueryResult)
    (conn : Connection) (entity : Entity) (_id : SqlValue) :
    Option ResultRow :=
  let qb := PgQueryBuilder.new conn entity
  let _sel := qb.select entity.columns
  let _whr := qb.whereSql findByIdCondSrc
  let result := qb.execute q
  result.head?

/-- Property access `result.rowCount` where `result` is the JavaScript
array returned by `execute` (its `rows`): arrays have no `rowCount`
property, so the access yields `undefined` (`none`). -/
def arrayRowCount (_rows : List ResultRow) : Option Nat :=
  none

/-- The `delete(condition)` method of `PgRepository`. As in `findById`,
the builders returned by `qb.delete()` and `qb.where(condition)` are
discarded and the untouched `qb` is executed; the returned value is
`(result as any).rowCount` read off the rows array. -/
def delete (q : String → List SqlValue → QueryResult)
    (conn : Connection) (entity : Entity) (condSrc : String) :
    Option Nat :=
  let qb := PgQueryBuilder.new conn entity
  let _del := qb.delete
  let _whr := qb.whereSql condSrc
  let result := qb.execute q
  arrayRowCount result

end PgRepository

/-- The `ColumnOptions` interface of the decorator module. -/
structure ColumnOptions where
  name : Option String
  type : Option String
deriving DecidableEq, Repr

/-- A record pushed onto `getMetadataArgsStorage().columns`. -/
structure ColumnMetadataArgs where
  propertyName : String
  type : String
deriving DecidableEq, Repr

/-- JavaScript truthiness of a string: every string except `""`. -/
def truthyString (s : String) : Bool :=
  !s.isEmpty

/-- The `Column(options)` decorator body. The source expression is
`options?.type ?? typeof (object as any)[propertyName] == "string"
? "varchar(255)" : "int"`; `??` binds tighter than `?:`, so the whole
`??`-expression is the ternary's condition: a declared `type` string is
used only for its truthiness, and the stored type is `"varchar(255)"`
or `"int"` accordingly. `valueIsString` models
`typeof (object as any)[propertyName] == "string"`. -/
def Column (options : Option ColumnOptions) (propertyName : String)
    (valueIsString : Bool) : ColumnMetadataArgs :=
  let declaredName := options.bind ColumnOptions.name
  let declaredType := options.bind ColumnOptions.type
  let cond : Bool :=
    match declaredType with
    | some t => truthyString t
    | none => valueIsString
  { propertyName := declaredName.getD propertyName,
    type := if cond then "varchar(255)" else "int" }

/-- Session state of a `PgConnection`: the log of statements handed to
the underlying client, in order (`none` parameters model a `query` call
whose `params` argument was omitted). -/
structure PgConnection where
  log : List (String × Option (List SqlValue))
deriving DecidableEq, Repr

namespace PgConnection

/-- The `query(sql, params)` method of `PgConnection`: hands the
statement to the client; the session state records it. -/
def query (c : PgConnection) (sql : String)
    (params : Option (List SqlValue)) : PgConnection :=
  { log := c.log ++ [(sql, params)] }

end PgConnection

/-- A `PgTransaction` wraps the connection it was begun on. -/
structure PgTransaction where
  connection : PgConnection
deriving DecidableEq, Repr

namespace PgTransaction

/-- The `query(sql, params)` method of `PgTransaction`: delegates to the
wrapped connection. -/
def query (t : PgTransaction) (sql : String)
    (params : Option (List SqlValue)) : Except String PgTransaction :=
  .ok { connection := t.connection.query sql params }

/-- The `beginTransaction()` method of `PgTransaction`: always throws. -/
def beginTransaction (_t : PgTransaction) : Except String PgTransaction :=
  .error "Cannot begin a nested transaction"

/-- The `commit()` method: issues `COMMIT` through the connection. -/
def commit (t : PgTransaction) : Except String PgTransaction :=
  .ok { connection := t.connection.query "COMMIT" none }

/-- The `rollback()` method: issues `ROLLBACK` through the connection. -/
def rollback (t : PgTransaction) : Except String PgTransaction :=
  .ok { connection := t.connection.query "ROLLBACK" none }

/-- The `close()` method of `PgTransaction`: always throws. -/
def close (_t : PgTransaction) : Except String PgTransaction :=
  .error "Cannot close a transaction"

end PgTransaction

/-! Specification-side descriptions of the placeholder numbering, used
to state the claims about `insert` and `update`. They follow the spec's
words ("placeholder `$N` where N is the 1-based running parameter count
across the whole statement") and are compared with the source-derived
definitions above. -/

/-- Placeholder texts `$(start+1), ..., $(start+k)`. -/
def placeholderList (start : Nat) : Nat → List String
  | 0 => []
  | k + 1 => ("$" ++ toString (start + 1)) :: placeholderList (start + 1) k

/-- One `VALUES` tuple of `k` placeholders starting after `start`
already-emitted parameters. -/
def rowTuple (start k : Nat) : String :=
  "(" ++ joinSep ", " (placeholderList start k) ++ ")"

/-- The tuples of an `n`-row, `k`-column insert whose first placeholder
is `$(start+1)`: row-major numbering, advancing by `k` per row. -/
def allTuples (k : Nat) : Nat → Nat → List String
  | 0, _ => []
  | n + 1, start => rowTuple start k :: allTuples k n (start + k)

/-- Cell texts of one row as the spec states them: an undefined value
prints `NULL` and consumes no placeholder; a defined value prints `$`
followed by one plus the count `p` of placeholders already emitted. -/
def specCellTexts (p : Nat) (row : Row) : List String → List String
  | [] => []
  | c :: cs =>
    match lookupVal row c with
    | none => "NULL" :: specCellTexts p row cs
    | some _ => ("$" ++ toString (p + 1)) :: specCellTexts (p + 1) row cs

/-- The defined values of one row, in column order (what the parameter
list gains from that row). -/
def definedVals (columns : List String) (row : Row) : List SqlValue :=
  columns.filterMap (lookupVal row)

/-- The whole `VALUES` body as the spec states it: tuples of cell texts
joined by `", "`, the placeholder count running across rows. -/
def specRowsText (columns : List String) (p : Nat) : List Row → String
  | [] => ""
  | [row] => "(" ++ joinSep ", " (specCellTexts p row columns) ++ ")"
  | row :: next :: rest =>
    "(" ++ joinSep ", " (specCellTexts p row columns) ++ ")" ++ ", "
      ++ specRowsText columns (p + (definedVals columns row).length)
          (next :: rest)

/-- The `SET` body of `update` as the spec states it, with the same
running placeholder count. -/
def specUpdateText (p : Nat) (columns : Row) : List String → String
  | [] => ""
  | k :: ks =>
    let assign := " " ++ quoteIdent k ++ " ="
    match lookupVal columns k with
    | none =>
      assign ++ " NULL" ++ (if ks = [] then "" else ", ")
        ++ specUpdateText p columns ks
    | some _ =>
      assign ++ (" $" ++ toString (p + 1)) ++ (if ks = [] then "" else ", ")
        ++ specUpdateText (p + 1) columns ks

/-- Concatenation of each row's defined values, in row order: the
parameter list an insert accumulates. -/
def rowsParams (columns : List String) : List Row → List SqlValue
  | [] => []
  | row :: rest => definedVals columns row ++ rowsParams columns rest

/-! Concrete data for the end-to-end scenarios of the spec. -/

/-- A connection object (only its identity matters to the builder). -/
def conn0 : Connection := { connId := 0 }

/-- The `comments` entity of the select/where/orderBy/limit scenario. -/
def commentsEntity : Entity :=
  { tableName := "comments", columns := ["id", "content", "postId"] }

/-- The `users` entity used by the insert scenario. -/
def usersEntity : Entity :=
  { tableName := "users", columns := ["name", "email"] }

/-- The rows of the scenario
`insert({name:"A", email:"a@x.com"}, {name:"B", email: undefined})`. -/
def exampleInsertRows : List Row :=
  [[("name", some "A"), ("email", some "a@x.com")],
   [("name", some "B"), ("email", none)]]

/-- The builder chain of the scenario
`select("id","content").where(c => c.postId == 5).orderBy("id","asc").limit(10)`;
the predicate is represented by its printed source text. -/
def commentsChain : PgQueryBuilder :=
  ((((PgQueryBuilder.new conn0 commentsEntity).select
    ["id", "content"]).whereSql "c => c.postId == 5").orderBy "id" "asc").limit 10

/-- A two-row, two-column, fully defined insert batch. -/
def witnessRows : List Row :=
  [[("a", some "1"), ("b", some "2")], [("a", some "3"), ("b", some "4")]]

/-! Helper lemmas relating the source-derived loops to the spec-side
placeholder descriptions. -/

/-- The cell loop of `insert` produces exactly the spec's cell texts and
appends exactly the row's defined values to the parameter list. -/
theorem rowValues_eq_spec (row : Row) :
    ∀ (cols : List String) (params : List SqlValue),
      PgQueryBuilder.rowValues params row cols
        = (specCellTexts params.length row cols, params ++ definedVals cols row)
  | [], params => by
    simp [PgQueryBuilder.rowValues, specCellTexts, definedVals]
  | c :: cs, params => by
    cases h : lookupVal row c with
    | none =>
      simp [PgQueryBuilder.rowValues, specCellTexts, definedVals,
        List.filterMap_cons, h, rowValues_eq_spec row cs params]
    | some v =>
      simp [PgQueryBuilder.rowValues, specCellTexts, definedVals,
        List.filterMap_cons, h, rowValues_eq_spec row cs (params ++ [v])]

/-- The row loop of `insert` appends the spec's `VALUES` body and the
concatenated defined values of all rows. -/
theorem insertRows_eq_spec (cols : List String) :
    ∀ (rows : List Row) (sql : String) (params : List SqlValue),
      PgQueryBuilder.insertRows cols rows sql params
        = (sql ++ specRowsText cols params.length rows,
           params ++ rowsParams cols rows)
  | [], sql, params => by
    simp [PgQueryBuilder.insertRows, specRowsText, rowsParams]
  | [row], sql, params => by
    simp [PgQueryBuilder.insertRows, specRowsText, rowsParams,
      rowValues_eq_spec row cols params]
  | row :: next :: rest, sql, params => by
    have step : PgQueryBuilder.insertRows cols (row :: next :: rest) sql params
        = PgQueryBuilder.insertRows cols (next :: rest)
            (sql ++ ("(" ++ joinSep ", "
              (PgQueryBuilder.rowValues params row cols).1 ++ ")") ++ ", ")
            (PgQueryBuilder.rowValues params row cols).2 := rfl
    rw [step, rowValues_eq_spec row cols params,
      insertRows_eq_spec cols (next :: rest)]
    simp [specRowsText, rowsParams, String.append_assoc, List.append_assoc]

/-- The key loop of `update` produces exactly the spec's `SET` body text
and appends exactly the defined values of the listed keys. -/
theorem updateLoop_eq_spec (columns : Row) :
    ∀ (ks : List String) (params : List SqlValue),
      PgQueryBuilder.updateLoop params columns ks
        = (specUpdateText params.length columns ks,
           params ++ definedVals ks columns)
  | [], params => by
    simp [PgQueryBuilder.updateLoop, specUpdateText, definedVals]
  | k :: ks, params => by
    cases h : lookupVal columns k with
    | none =>
      simp [PgQueryBuilder.updateLoop, specUpdateText, definedVals,
        List.filterMap_cons, h, updateLoop_eq_spec columns ks params]
    | some v =>
      simp [PgQueryBuilder.updateLoop, specUpdateText, definedVals,
        List.filterMap_cons, h, updateLoop_eq_spec columns ks (params ++ [v])]

/-- A row that defines every listed column contributes one defined value
per column. -/
theorem definedVals_length (row : Row) :
    ∀ (cols : List String),
      (∀ c ∈ cols, (lookupVal row c).isSome) →
      (definedVals cols row).length = cols.length
  | [], _ => by simp [definedVals]
  | c :: cs, h => by
    rcases Option.isSome_iff_exists.mp (h c (by simp)) with ⟨v, hv⟩
    have ih := definedVals_length row cs (fun x hx => h x (by simp [hx]))
    simp [definedVals, List.filterMap_cons, hv] at ih ⊢
    exact ih

/-- With every column defined, the spec's cell texts are exactly the
consecutively numbered placeholders. -/
theorem specCellTexts_allDefined (row : Row) :
    ∀ (cols : List String) (p : Nat),
      (∀ c ∈ cols, (lookupVal row c).isSome) →
      specCellTexts p row cols = placeholderList p cols.length
  | [], p, _ => by simp [specCellTexts, placeholderList]
  | c :: cs, p, h => by
    rcases Option.isSome_iff_exists.mp (h c (by simp)) with ⟨v, hv⟩
    simp [specCellTexts, placeholderList, hv,
      specCellTexts_allDefined row cs (p + 1) (fun x hx => h x (by simp [hx]))]

/-- With every column of every row defined, the spec's `VALUES` body is
exactly the `", "`-join of the row-major placeholder tuples. -/
theorem specRowsText_allDefined (cols : List String) :
    ∀ (rows : List Row) (p : Nat),
      (∀ row ∈ rows, ∀ c ∈ cols, (lookupVal row c).isSome) →
      specRowsText cols p rows = joinSep ", " (allTuples cols.length rows.length p)
  | [], p, _ => by simp [specRowsText, allTuples, joinSep]
  | [row], p, h => by
    simp [specRowsText, allTuples, joinSep, rowTuple,
      specCellTexts_allDefined row cols p (h row (by simp))]
  | row :: next :: rest, p, h => by
    have hrow : ∀ c ∈ cols, (lookupVal row c).isSome := h row (by simp)
    have htail : ∀ r ∈ next :: rest, ∀ c ∈ cols, (lookupVal r c).isSome :=
      fun r hr => h r (by simp at hr ⊢; tauto)
    have ih := specRowsText_allDefined cols (next :: rest)
      (p + (definedVals cols row).length) htail
    rw [definedVals_length row cols hrow] at ih
    simp [specRowsText, allTuples, joinSep, rowTuple, ih,
      definedVals_length row cols hrow, specCellTexts_allDefined row cols p hrow,
      String.append_assoc]

/-- With every column of every row defined, the accumulated parameter
list has one entry per row and column. -/
theorem rowsParams_length (cols : List String) :
    ∀ (rows : List Row),
      (∀ row ∈ rows, ∀ c ∈ cols, (lookupVal row c).isSome) →
      (rowsParams cols rows).length = rows.length * cols.length
  | [], _ => by simp [rowsParams]
  | row :: rest, h => by
    have ih := rowsParams_length cols rest (fun r hr => h r (by simp [hr]))
    simp [rowsParams, definedVals_length row cols (h row (by simp)), ih]
    ring

/-! Claim theorems. -/

/-- C1: an insert of `N ≥ 1` rows that all define every column of the
first row's key set (`K` columns) compiles to the `INSERT ... VALUES`
head followed by the `", "`-join of `N` placeholder tuples numbered
`$1..$(N*K)` in row-major order, and the parameter list is the row-major
concatenation of the rows' values, of length `N*K`, so the parameter at
position `i` is the one bound to placeholder `$(i+1)`. -/
theorem insert_rowMajor_placeholders (qb : PgQueryBuilder) (r : Row)
    (rest : List Row)
    (hdef : ∀ row ∈ r :: rest, ∀ c ∈ r.map Prod.fst,
      (lookupVal row c).isSome) :
    PgQueryBuilder.insert qb (r :: rest)
      = some { connection := qb.connection, entity := qb.entity,
               sql := PgQueryBuilder.insertHead qb.entity (r.map Prod.fst)
                 ++ joinSep ", "
                     (allTuples (r.map Prod.fst).length (r :: rest).length 0),
               params := rowsParams (r.map Prod.fst) (r :: rest) }
    ∧ (rowsParams (r.map Prod.fst) (r :: rest)).length
        = (r :: rest).length * (r.map Prod.fst).length := by
  refine ⟨?_, rowsParams_length _ _ hdef⟩
  have h1 : PgQueryBuilder.insert qb (r :: rest)
      = some { connection := qb.connection, entity := qb.entity,
               sql := (PgQueryBuilder.insertRows (r.map Prod.fst) (r :: rest)
                 (PgQueryBuilder.insertHead qb.entity (r.map Prod.fst)) []).1,
               params := (PgQueryBuilder.insertRows (r.map Prod.fst) (r :: rest)
                 (PgQueryBuilder.insertHead qb.entity (r.map Prod.fst)) []).2 } :=
    rfl
  rw [h1, insertRows_eq_spec]
  simp only [List.length_nil, List.nil_append]
  rw [specRowsText_allDefined (r.map Prod.fst) (r :: rest) 0 hdef]

/-- Witness for `insert_rowMajor_placeholders`: the hypothesis and the
conclusion hold at a concrete two-row, two-column batch. -/
theorem insert_rowMajor_placeholders_witness :
    (∀ row ∈ witnessRows, ∀ c ∈ ["a", "b"], (lookupVal row c).isSome)
    ∧ (PgQueryBuilder.insert (PgQueryBuilder.new conn0 usersEntity) witnessRows
        = some { connection := conn0, entity := usersEntity,
                 sql := PgQueryBuilder.insertHead usersEntity ["a", "b"]
                   ++ joinSep ", " (allTuples 2 2 0),
                 params := rowsParams ["a", "b"] witnessRows }
      ∧ (rowsParams ["a", "b"] witnessRows).length = 2 * 2) :=
  ⟨by decide,
   insert_rowMajor_placeholders (PgQueryBuilder.new conn0 usersEntity)
     [("a", some "1"), ("b", some "2")] [[("a", some "3"), ("b", some "4")]]
     (by decide)⟩

/-- C2 (amended): undefined values print `NULL` and consume no
placeholder slot; every defined value takes the placeholder numbered one
plus the count of placeholders already emitted across the statement (for
insert and update alike), and the scenario
`insert({name:"A", email:"a@x.com"}, {name:"B", email: undefined})`
compiles to `... VALUES($1, $2), ($3, NULL)` — with no space between
`VALUES` and the first tuple — with parameters `["A", "a@x.com", "B"]`. -/
theorem nullValues_skip_placeholders :
    (∀ (qb : PgQueryBuilder) (r : Row) (rest : List Row),
      PgQueryBuilder.insert qb (r :: rest)
        = some { connection := qb.connection, entity := qb.entity,
                 sql := PgQueryBuilder.insertHead qb.entity (r.map Prod.fst)
                   ++ specRowsText (r.map Prod.fst) 0 (r :: rest),
                 params := rowsParams (r.map Prod.fst) (r :: rest) })
    ∧ (∀ (qb : PgQueryBuilder) (columns : Row),
      PgQueryBuilder.update qb columns
        = { connection := qb.connection, entity := qb.entity,
            sql := "UPDATE " ++ quoteIdent qb.entity.tableName ++ " SET"
              ++ specUpdateText 0 columns (columns.map Prod.fst),
            params := definedVals (columns.map Prod.fst) columns })
    ∧ PgQueryBuilder.insert (PgQueryBuilder.new conn0 usersEntity)
        exampleInsertRows
        = some { connection := conn0, entity := usersEntity,
                 sql := "INSERT INTO \"users\" (\"name\", \"email\")"
                   ++ " VALUES($1, $2), ($3, NULL)",
                 params := ["A", "a@x.com", "B"] } := by
  refine ⟨fun qb r rest => ?_, fun qb columns => ?_, by decide⟩
  · have h1 : PgQueryBuilder.insert qb (r :: rest)
        = some { connection := qb.connection, entity := qb.entity,
                 sql := (PgQueryBuilder.insertRows (r.map Prod.fst) (r :: rest)
                   (PgQueryBuilder.insertHead qb.entity (r.map Prod.fst)) []).1,
                 params := (PgQueryBuilder.insertRows (r.map Prod.fst)
                   (r :: rest)
                   (PgQueryBuilder.insertHead qb.entity (r.map Prod.fst)) []).2 }
        := rfl
    rw [h1, insertRows_eq_spec]
    simp only [List.length_nil, List.nil_append]
  · have h1 : PgQueryBuilder.update qb columns
        = { connection := qb.connection, entity := qb.entity,
            sql := "UPDATE " ++ quoteIdent qb.entity.tableName ++ " SET"
              ++ (PgQueryBuilder.updateLoop [] columns
                   (columns.map Prod.fst)).1,
            params := (PgQueryBuilder.updateLoop [] columns
                   (columns.map Prod.fst)).2 } := rfl
    rw [h1, updateLoop_eq_spec]
    simp only [List.length_nil, List.nil_append]

/-- Counterexample to C2 as stated: the scenario's compiled SQL is
`...VALUES($1, $2), ($3, NULL)`; the claimed text
`VALUES ($1, $2), ($3, NULL)` (with a space after `VALUES`) does not
occur in it. -/
theorem insert_example_no_space_after_values :
    (PgQueryBuilder.insert (PgQueryBuilder.new conn0 usersEntity)
        exampleInsertRows).map PgQueryBuilder.sql
      = some
        "INSERT INTO \"users\" (\"name\", \"email\") VALUES($1, $2), ($3, NULL)"
    ∧ ¬ ("VALUES ($1, $2), ($3, NULL)".data
        <:+: "INSERT INTO \"users\" (\"name\", \"email\") VALUES($1, $2), ($3, NULL)".data) := by
  constructor
  · decide
  · decide

/-- C3 (amended): `where` yields a fresh draft whose SQL is the
receiver's accumulated SQL, then `" WHERE"` with no trailing space, then
the predicate source text with every occurrence of `t.` replaced by the
double-quoted table name and a dot (the column name is not quoted); the
fresh draft's parameter list is reset to `[]`, not carried over. Two
`where` calls accumulate both suffixes in call order. -/
theorem where_appends_where_suffix :
    ∀ (qb : PgQueryBuilder) (c1 c2 : String),
      qb.whereSql c1
        = { connection := qb.connection, entity := qb.entity,
            sql := qb.sql ++ " WHERE"
              ++ rewriteCond 't' qb.entity.tableName c1,
            params := [] }
      ∧ ((qb.whereSql c1).whereSql c2).sql
          = qb.sql ++ " WHERE" ++ rewriteCond 't' qb.entity.tableName c1
            ++ " WHERE" ++ rewriteCond 't' qb.entity.tableName c2 :=
  fun _ _ _ => ⟨rfl, rfl⟩

/-- Counterexample to C3 as stated: a draft holding one parameter loses
it when `where` is applied — the parameter list is not unchanged. -/
theorem where_drops_receiver_params :
    ¬ (((PgQueryBuilder.update (PgQueryBuilder.new conn0 usersEntity)
          [("name", some "A")]).whereSql "(t) => t.id === 1").params
        = (PgQueryBuilder.update (PgQueryBuilder.new conn0 usersEntity)
          [("name", some "A")]).params) := by
  decide

/-- C4 (amended): the `comments` chain compiles to
`SELECT "id", "content" FROM "comments" WHEREc => c.postId == 5 ORDER BY
"id" ASC LIMIT 10` with an empty parameter list: the `WHERE` keyword is
concatenated directly to the predicate's printed source text (no space),
the lambda head `c =>` survives, and nothing is rewritten because the
two-character pattern `t.` does not occur in that text. -/
theorem comments_chain_actual_compilation :
    commentsChain.sql
      = "SELECT \"id\", \"content\" FROM \"comments\" WHEREc => c.postId == 5 ORDER BY \"id\" ASC LIMIT 10"
    ∧ commentsChain.params = [] := by
  constructor
  · decide
  · decide

/-- Counterexample to C4 as stated: the chain does not compile to the
claimed `... WHERE "comments"."postId" == 5 ...` text. -/
theorem comments_chain_not_spec_sql :
    commentsChain.sql
      ≠ "SELECT \"id\", \"content\" FROM \"comments\" WHERE \"comments\".\"postId\" == 5 ORDER BY \"id\" ASC LIMIT 10" := by
  decide

/-- C5: what `findById` actually executes. The builders returned by
`qb.select(...)` and `qb.where(...)` are discarded, so the statement
sent to the connection is the untouched builder's empty SQL `""` with no
parameters — not a `SELECT` of the declared columns filtered by `id` —
and the returned value is the first row of whatever the driver answers
to `("", [])`, or `null` when there is none. -/
theorem findById_executes_empty_statement :
    ∀ (q : String → List SqlValue → QueryResult) (conn : Connection)
      (e : Entity) (i : SqlValue),
      PgRepository.findById q conn e i = ((q "" []).rows).head? :=
  fun _ _ _ _ => rfl

/-- C6: what `delete` actually returns. The builders returned by
`qb.delete()` and `qb.where(...)` are discarded, so the executed
statement is the empty string, and the returned value is the `rowCount`
property of the rows array — which is `undefined` — for every driver
behaviour, entity and predicate; the execution metadata's `rowCount` is
never consulted. -/
theorem delete_returns_undefined_rowCount :
    ∀ (q : String → List SqlValue → QueryResult) (conn : Connection)
      (e : Entity) (condSrc : String),
      PgRepository.delete q conn e condSrc = none :=
  fun _ _ _ _ => rfl

/-- C7: what the `Column` decorator records. A declared `type: "int"` is
used only as the (truthy) condition of the ternary, so the recorded type
is `"varchar(255)"`, not the declared `"int"`; only the no-declared-type
cases default by the inferred value kind as the claim states. -/
theorem column_type_option_ignored :
    Column (some { name := none, type := some "int" }) "id" false
      = { propertyName := "id", type := "varchar(255)" }
    ∧ (Column none "name" true).type = "varchar(255)"
    ∧ (Column none "age" false).type = "int" := by
  refine ⟨rfl, rfl, rfl⟩

/-- C8: a transaction rejects `beginTransaction` and `close`, each with
its descriptive error, while `query`, `commit` and `rollback` still
delegate to the wrapped connection's session — the failing calls leave
the connection state untouched and usable. -/
theorem transaction_rejects_begin_and_close :
    ∀ (t : PgTransaction) (sql : String) (params : Option (List SqlValue)),
      t.beginTransaction = .error "Cannot begin a nested transaction"
      ∧ t.close = .error "Cannot close a transaction"
      ∧ t.query sql params = .ok { connection := t.connection.query sql params }
      ∧ t.commit = .ok { connection := t.connection.query "COMMIT" none }
      ∧ t.rollback = .ok { connection := t.connection.query "ROLLBACK" none } :=
  fun _ _ _ => ⟨rfl, rfl, rfl, rfl, rfl⟩

/-- C9 (amended): every builder method returns a new builder bound to
the same connection, and — receivers being immutable values of the
embedding — leaves the receiver untouched; all methods except the joins
bind the same entity, while `innerJoin`/`leftJoin` bind the top-level
spread `{...this.entity, ...entity}` of the two entities. -/
theorem builder_methods_fresh_instance :
    ∀ (qb : PgQueryBuilder) (cols : List String) (r : Row) (rest : List Row)
      (columns : Row) (other : Entity) (src col dir : String) (n : Int),
      ((qb.select cols).connection = qb.connection
        ∧ (qb.select cols).entity = qb.entity)
      ∧ ((qb.insert (r :: rest)).map (fun b => (b.connection, b.entity))
          = some (qb.connection, qb.entity))
      ∧ ((qb.update columns).connection = qb.connection
        ∧ (qb.update columns).entity = qb.entity)
      ∧ (qb.delete.connection = qb.connection ∧ qb.delete.entity = qb.entity)
      ∧ ((qb.innerJoin other src).connection = qb.connection
        ∧ (qb.innerJoin other src).entity
            = PgQueryBuilder.mergeEntity qb.entity other)
      ∧ ((qb.leftJoin other src).connection = qb.connection
        ∧ (qb.leftJoin other src).entity
            = PgQueryBuilder.mergeEntity qb.entity other)
      ∧ ((qb.whereSql src).connection = qb.connection
        ∧ (qb.whereSql src).entity = qb.entity)
      ∧ ((qb.orderBy col dir).connection = qb.connection
        ∧ (qb.orderBy col dir).entity = qb.entity)
      ∧ ((qb.limit n).connection = qb.connection
        ∧ (qb.limit n).entity = qb.entity)
      ∧ ((qb.offset n).connection = qb.connection
        ∧ (qb.offset n).entity = qb.entity) :=
  fun _ _ _ _ _ _ _ _ _ _ =>
    ⟨⟨rfl, rfl⟩, rfl, ⟨rfl, rfl⟩, ⟨rfl, rfl⟩, ⟨rfl, rfl⟩, ⟨rfl, rfl⟩,
     ⟨rfl, rfl⟩, ⟨rfl, rfl⟩, ⟨rfl, rfl⟩, ⟨rfl, rfl⟩⟩

/-- Counterexample to C9 as stated: `innerJoin` does not bind the same
entity — joining entity `a` with entity `b` yields a builder whose
entity is the spread-merge, here entity `b`. -/
theorem innerJoin_rebinds_entity :
    ((PgQueryBuilder.new conn0 { tableName := "a", columns := [] }).innerJoin
        { tableName := "b", columns := [] } "(t, u) => t.x === u.y").entity
      ≠ ({ tableName := "a", columns := [] } : Entity) := by
  decide

/-- C10: `insert` is only well-defined for a non-empty row batch: with
zero rows the access `rows[0]` has no defined result (the embedding's
error branch, `none`, is reached), and with at least one row the column
set is computed from the first row and `insert` succeeds. -/
theorem insert_requires_first_row :
    ∀ (qb : PgQueryBuilder),
      PgQueryBuilder.insert qb [] = none
      ∧ ∀ (r : Row) (rest : List Row),
          (PgQueryBuilder.insert qb (r :: rest)).isSome :=
  fun _ => ⟨rfl, fun _ _ => rfl⟩

end Orm
